import Mathlib

/-!
Verification of the Kairos audio auditor (src/kairos_auditor.py) against its
specification.  The sanitizer, the worker task, the constructor and the
coordinator event loop are shallowly embedded below; strings are modelled as
lists of characters on the ASCII plane (the Python regex classes backslash-w
and backslash-s are larger on non-ASCII input, which no claim here depends on).
-/

namespace Kairos

/-- Python regex class backslash-w restricted to the ASCII plane:
the characters [A-Za-z0-9_]. -/
def wordChar (c : Char) : Bool :=
  c.isAlphanum || c == '_'

/-- Python regex class backslash-s restricted to the ASCII plane: space, tab,
newline, vertical tab, form feed, carriage return, and the separator control
characters U+001C through U+001F. -/
def spaceChar (c : Char) : Bool :=
  c == ' ' || c == '\t' || c == '\n' || c == '\x0b' || c == '\x0c' || c == '\r' ||
  c == '\x1c' || c == '\x1d' || c == '\x1e' || c == '\x1f'

/-- The character class kept by KairosReader.sanitize: the regex deletes every
character matching [^\w\s\.,!?\-], so a character survives exactly when it is a
word character, a whitespace character, or one of . , ! ? - . -/
def keptChar (c : Char) : Bool :=
  wordChar c || spaceChar c || c == '.' || c == ',' || c == '!' || c == '?' || c == '-'

/-- KairosReader.sanitize (src/kairos_auditor.py lines 91-98): re.sub with
pattern [^\w\s\.,!?\-] and empty replacement, i.e. a filter keeping exactly
the characters of the class. -/
def sanitize (text : List Char) : List Char :=
  text.filter keptChar

/-- String form of sanitize, for the concrete examples of the spec. -/
def sanitizeStr (text : String) : String :=
  ⟨sanitize text.data⟩

/-- The character class the spec claims for Clean output (spec section 8,
written [A-Za-z0-9\s.,!?-]): ASCII alphanumeric, whitespace, or one of the
five marks . , ! ? - .  Note Char.isAlphanum is exactly [A-Za-z0-9]. -/
def specAllowedChar (c : Char) : Bool :=
  c.isAlphanum || spaceChar c || c == '.' || c == ',' || c == '!' || c == '?' || c == '-'

/-- The pyttsx3 engine handle as speak_task uses it: setProperty with the rate,
say, runAndWait; each backend call may raise, modelled as Except. -/
structure Engine where
  setRate : Nat → Except String Unit
  say : List Char → Except String Unit
  runAndWait : Except String Unit

/-- Observable outcome of one execution of KairosReader.run_audio.speak_task
(src/kairos_auditor.py lines 117-136). -/
structure TaskResult where
  rateSet : Option Nat          -- argument of a successful setProperty call on rate
  saidText : Option (List Char) -- argument of a successful say call
  logged : Option String        -- message printed by the except branch
  resetScheduled : Bool         -- root.after scheduling reset_ui, from the finally branch
  propagated : Option String    -- an exception escaping speak_task uncaught
deriving DecidableEq

/-- KairosReader.run_audio.speak_task: sanitize the captured raw text, read the
slider NOW (in the worker thread, line 127) and set the rate, then say and
runAndWait; any exception is caught and printed, and the finally branch always
schedules reset_ui onto the main loop via root.after. -/
def speak_task (eng : Engine) (sliderNow : Nat) (raw_text : List Char) : TaskResult :=
  let clean_text := sanitize raw_text
  match eng.setRate sliderNow with
  | .error e => ⟨none, none, some e, true, none⟩
  | .ok _ =>
    match eng.say clean_text with
    | .error e => ⟨some sliderNow, none, some e, true, none⟩
    | .ok _ =>
      match eng.runAndWait with
      | .error e => ⟨some sliderNow, some clean_text, some e, true, none⟩
      | .ok _ => ⟨some sliderNow, some clean_text, none, true, none⟩

/-- Python str.strip on the ASCII plane: drop leading and trailing whitespace. -/
def pyStrip (s : List Char) : List Char :=
  ((s.dropWhile spaceChar).reverse.dropWhile spaceChar).reverse

/-- Result of one call to KairosReader.run_audio. -/
inductive SubmitResult where
  | rejectedEmpty                 -- warning dialog shown, no thread started
  | started (task : TaskResult)   -- worker thread spawned; task is its outcome
deriving DecidableEq

/-- KairosReader.run_audio (lines 100-139) together with the worker it spawns.
bufferText and sliderAtSubmit are the widget values at the moment run_audio
executes; sliderAtTask is the slider value at the moment the worker thread
reads it at line 127.  The source reads the live slider inside the worker, so
sliderAtSubmit is never consulted. -/
def run_audio (eng : Engine) (bufferText : List Char)
    (sliderAtSubmit sliderAtTask : Nat) : SubmitResult :=
  let raw_text := pyStrip bufferText
  if raw_text.isEmpty then .rejectedEmpty
  else .started (speak_task eng sliderAtTask raw_text)

/-- The rate a submission passed to the engine, if any. -/
def rateUsed : SubmitResult → Option Nat
  | .rejectedEmpty => none
  | .started t => t.rateSet

/-- Interface-side coordinator state: the trigger button, the status label,
the number of live background runs, and the number of reset_ui callbacks
queued through root.after and not yet executed by the main loop. -/
structure CoordState where
  btnEnabled : Bool
  statusRunning : Bool
  activeRuns : Nat
  pendingResets : Nat
deriving DecidableEq

/-- Events of the coordinator: a button press dispatched by the interface main
loop, a worker thread finishing speak_task, and the main loop executing a
queued reset_ui callback. -/
inductive Ev where
  | click (bufferText : List Char)
  | taskDone (err : Option String)
  | runReset
deriving DecidableEq

/-- Notifications delivered to the interface: run started (button disabled and
progress indicator shown, lines 114-115) and run finished (button re-enabled
and idle indicator restored, reset_ui lines 141-146). -/
inductive Notif where
  | runStarted
  | runFinished
deriving DecidableEq

/-- Execution context of each event: button commands and after-callbacks run on
the interface main loop; speak_task runs on the spawned worker thread. -/
inductive Ctx where
  | main
  | worker
deriving DecidableEq

/-- Context on which each event executes. -/
def evCtx : Ev → Ctx
  | .click _ => .main
  | .taskDone _ => .worker
  | .runReset => .main

/-- Small-step semantics of the coordinator.  A click on an enabled button with
non-blank text disables the button and spawns a run (emitting the run-started
notification synchronously on the main loop); a click with blank text shows a
warning and changes nothing; a click on a disabled button is dropped by the
widget layer; a finishing worker only enqueues a reset_ui callback through
root.after (the thread-safe hand-off — it mutates no widget); the queued
reset_ui re-enables the button on the main loop, emitting the run-finished
notification. -/
inductive Step : CoordState → Ev → List Notif → CoordState → Prop where
  | clickAccepted {s : CoordState} {t : List Char} :
      s.btnEnabled = true → (pyStrip t).isEmpty = false →
      Step s (.click t) [.runStarted]
        { btnEnabled := false, statusRunning := true,
          activeRuns := s.activeRuns + 1, pendingResets := s.pendingResets }
  | clickEmpty {s : CoordState} {t : List Char} :
      s.btnEnabled = true → (pyStrip t).isEmpty = true →
      Step s (.click t) [] s
  | clickBlocked {s : CoordState} {t : List Char} :
      s.btnEnabled = false →
      Step s (.click t) [] s
  | taskDone {s : CoordState} {e : Option String} :
      1 ≤ s.activeRuns →
      Step s (.taskDone e) []
        { btnEnabled := s.btnEnabled, statusRunning := s.statusRunning,
          activeRuns := s.activeRuns - 1, pendingResets := s.pendingResets + 1 }
  | runReset {s : CoordState} :
      1 ≤ s.pendingResets →
      Step s .runReset [.runFinished]
        { btnEnabled := true, statusRunning := false,
          activeRuns := s.activeRuns, pendingResets := s.pendingResets - 1 }

/-- A trace: a sequence of steps with the notifications each one emitted. -/
inductive Trace : CoordState → List (Ev × List Notif) → CoordState → Prop where
  | nil {s : CoordState} : Trace s [] s
  | cons {s : CoordState} {e : Ev} {ns : List Notif} {s1 : CoordState}
      {tl : List (Ev × List Notif)} {s2 : CoordState} :
      Step s e ns s1 → Trace s1 tl s2 → Trace s ((e, ns) :: tl) s2

/-- Initial state: button enabled, idle indicator, no runs, no callbacks. -/
def initState : CoordState :=
  { btnEnabled := true, statusRunning := false, activeRuns := 0, pendingResets := 0 }

/-- Number of runs in flight, counting both live workers and queued resets. -/
def flight (s : CoordState) : Nat :=
  s.activeRuns + s.pendingResets

/-- The coordinator invariant: the button is enabled exactly when nothing is in
flight, and hence at most one run is ever in flight. -/
def Inv (s : CoordState) : Prop :=
  flight s = (if s.btnEnabled then 0 else 1)

/-- Flat list of the notifications a trace emitted, in order. -/
def notifsOf (tr : List (Ev × List Notif)) : List Notif :=
  (tr.map Prod.snd).flatten

/-- Number of run-started notifications in a list. -/
def countStarted : List Notif → Nat
  | [] => 0
  | .runStarted :: tl => countStarted tl + 1
  | .runFinished :: tl => countStarted tl

/-- Number of run-finished notifications in a list. -/
def countFinished : List Notif → Nat
  | [] => 0
  | .runStarted :: tl => countFinished tl
  | .runFinished :: tl => countFinished tl + 1

/-- The state while a run is in progress: button disabled, one live worker. -/
def runningState : CoordState :=
  { btnEnabled := false, statusRunning := true, activeRuns := 1, pendingResets := 0 }

/-- An engine whose backend calls all succeed. -/
def okEngine : Engine :=
  { setRate := fun _ => Except.ok ()
    say := fun _ => Except.ok ()
    runAndWait := Except.ok () }

/-- An engine whose say call raises, as when the audio subsystem vanishes. -/
def failingEngine : Engine :=
  { setRate := fun _ => Except.ok ()
    say := fun _ => Except.error "audio subsystem unavailable"
    runAndWait := Except.ok () }

/-- A complete run: accepted click, worker completion, reset_ui callback. -/
def fullRunTrace : List (Ev × List Notif) :=
  [(Ev.click ['h', 'i'], [Notif.runStarted]),
   (Ev.taskDone none, []),
   (Ev.runReset, [Notif.runFinished])]

/-- Record of what KairosReader.__init__ (lines 25-49) does, per branch. -/
structure InitTrace where
  errorShown : Bool     -- messagebox.showerror with Kernel Error
  rootDestroyed : Bool  -- self.root.destroy()
  uiInitCalled : Bool   -- self.ui_init()
  engineAssigned : Bool -- the attribute self.engine was bound
deriving DecidableEq

/-- KairosReader.__init__: try to acquire the engine and set the volume; on any
exception show the Kernel Error dialog and destroy the root window; then —
unconditionally, since the except branch neither returns nor re-raises — call
self.ui_init(). -/
def kairos_init (initEngine : Except String Unit) (setVolume : Except String Unit) : InitTrace :=
  match initEngine with
  | .error _ =>
      { errorShown := true, rootDestroyed := true, uiInitCalled := true, engineAssigned := false }
  | .ok _ =>
      match setVolume with
      | .error _ =>
          { errorShown := true, rootDestroyed := true, uiInitCalled := true, engineAssigned := true }
      | .ok _ =>
          { errorShown := false, rootDestroyed := false, uiInitCalled := true, engineAssigned := true }

/-! Helper lemmas. -/

theorem notifsOf_cons (e : Ev) (ns : List Notif) (tl : List (Ev × List Notif)) :
    notifsOf ((e, ns) :: tl) = ns ++ notifsOf tl := by
  simp [notifsOf]

theorem inv_initState : Inv initState := by
  simp [Inv, flight, initState]

theorem inv_step {s : CoordState} {e : Ev} {ns : List Notif} {s1 : CoordState}
    (hinv : Inv s) (hstep : Step s e ns s1) : Inv s1 := by
  cases hstep with
  | clickAccepted hb _ =>
      simp only [Inv, flight, hb, if_true] at hinv
      simp [Inv, flight]
      omega
  | clickEmpty _ _ => exact hinv
  | clickBlocked _ => exact hinv
  | taskDone ha =>
      simp only [Inv, flight] at hinv ⊢
      omega
  | runReset hp =>
      by_cases h : s.btnEnabled
      · exfalso
        simp [Inv, flight, h] at hinv
        omega
      · simp [Inv, flight, h] at hinv
        simp [Inv, flight]
        omega

theorem inv_trace {s : CoordState} {tr : List (Ev × List Notif)} {s2 : CoordState}
    (hinv : Inv s) (htr : Trace s tr s2) : Inv s2 := by
  induction htr with
  | nil => exact hinv
  | cons hstep _ ih => exact ih (inv_step hinv hstep)

/-- In every trace, at any point where a run-finished notification is emitted,
the notifications before it contain strictly more run-started than run-finished
entries, up to the number of runs already in flight at the start. -/
theorem trace_count_prefix {s : CoordState} {tr : List (Ev × List Notif)} {s2 : CoordState}
    (htr : Trace s tr s2) :
    ∀ p q, notifsOf tr = p ++ Notif.runFinished :: q →
      countFinished p < countStarted p + flight s := by
  induction htr with
  | nil =>
      intro p q hpq
      simp [notifsOf] at hpq
  | cons hstep _ ih =>
      intro p q hpq
      cases hstep with
      | clickAccepted hb hne =>
          rw [notifsOf_cons] at hpq
          cases p with
          | nil => simp at hpq
          | cons n p2 =>
              rw [List.cons_append] at hpq
              injection hpq with h1 h2
              subst h1
              have := ih p2 q h2
              simp only [countStarted, countFinished, flight] at this ⊢
              omega
      | clickEmpty hb he =>
          rw [notifsOf_cons, List.nil_append] at hpq
          exact ih p q hpq
      | clickBlocked hb =>
          rw [notifsOf_cons, List.nil_append] at hpq
          exact ih p q hpq
      | taskDone ha =>
          rw [notifsOf_cons, List.nil_append] at hpq
          have := ih p q hpq
          simp only [flight] at this ⊢
          omega
      | runReset hp =>
          rw [notifsOf_cons] at hpq
          cases p with
          | nil =>
              simp only [countStarted, countFinished, flight]
              omega
          | cons n p2 =>
              rw [List.cons_append] at hpq
              injection hpq with h1 h2
              subst h1
              have := ih p2 q h2
              simp only [countStarted, countFinished, flight] at this ⊢
              omega

/-- Every event of a trace that emits a notification runs on the main loop. -/
theorem trace_notif_ctx {s : CoordState} {tr : List (Ev × List Notif)} {s2 : CoordState}
    (htr : Trace s tr s2) :
    ∀ e ns, (e, ns) ∈ tr → ns ≠ [] → evCtx e = Ctx.main := by
  induction htr with
  | nil =>
      intro e ns h
      cases h
  | cons hstep _ ih =>
      intro e ns hmem hne
      rcases List.mem_cons.mp hmem with heq | hmem2
      · rw [Prod.mk.injEq] at heq
        cases hstep with
        | clickAccepted _ _ => rw [heq.1]; rfl
        | clickEmpty _ _ => rw [heq.1]; rfl
        | clickBlocked _ => rw [heq.1]; rfl
        | taskDone _ => exact absurd heq.2 hne
        | runReset _ => rw [heq.1]; rfl
      · exact ih e ns hmem2 hne

/-! Claim theorems. -/

/-- Claim C1 as stated is false: sanitize keeps the underscore (the regex class
backslash-w matches it), yet the underscore is not ASCII alphanumeric, not
whitespace, and not one of the five marks; the input consisting of one
underscore is a counterexample. -/
theorem C1_counterexample :
    ¬ (∀ c ∈ sanitize ['_'], specAllowedChar c = true) := by
  decide

/-- Claim C1 (amended): every character of the sanitized output is either in
the character class the spec states, or an underscore; on the ASCII plane no
other character ever appears in the output. -/
theorem C1_sanitize_output_class (s : List Char) (hascii : ∀ c ∈ s, c.toNat < 128) :
    ∀ c ∈ sanitize s, (specAllowedChar c || c == '_') = true := by
  intro c hc
  have hmem := List.mem_filter.mp hc
  have hk : keptChar c = true := hmem.2
  simp only [keptChar, wordChar, Bool.or_eq_true] at hk
  simp only [specAllowedChar, Bool.or_eq_true]
  tauto

/-- Witness for C1_sanitize_output_class at a concrete ASCII input. -/
theorem C1_sanitize_output_class_witness :
    (∀ c ∈ ("Log@123: failed!".data), c.toNat < 128) ∧
    (∀ c ∈ sanitize ("Log@123: failed!".data), (specAllowedChar c || c == '_') = true) :=
  ⟨by decide, C1_sanitize_output_class ("Log@123: failed!".data) (by decide)⟩

/-- Claim C7: sanitize is idempotent — filtering an already filtered list
changes nothing. -/
theorem C7_sanitize_idempotent (s : List Char) :
    sanitize (sanitize s) = sanitize s := by
  simp [sanitize, List.filter_filter]

/-- Claim C8: the three concrete examples of the spec hold: empty input gives
empty output, an input of only disallowed characters gives the empty string
rather than an error, and the log-line example drops exactly @ and : . -/
theorem C8_sanitize_examples :
    sanitizeStr "" = "" ∧ sanitizeStr "###" = "" ∧
    sanitizeStr "Log@123: failed!" = "Log123 failed!" := by
  refine ⟨rfl, rfl, rfl⟩

/-- Claim C10: sanitization only deletes characters: the output is a sublist
(an order-preserving subsequence) of the input, and in particular no longer
than the input. -/
theorem C10_sanitize_sublist (s : List Char) :
    (sanitize s).Sublist s ∧ (sanitize s).length ≤ s.length := by
  refine ⟨List.filter_sublist s, ?_⟩
  exact (List.filter_sublist s).length_le

/-- Claim C2: single flight.  In every reachable state at most one background
run is live (no two Speak calls overlap); whenever anything is in flight the
trigger button is disabled, so a Submit is blocked at the interface layer; and
a click arriving while the button is disabled changes nothing and starts no
second run. -/
theorem C2_single_flight (s : CoordState) (tr : List (Ev × List Notif))
    (h : Trace initState tr s) :
    s.activeRuns ≤ 1 ∧
    (1 ≤ flight s → s.btnEnabled = false) ∧
    (s.btnEnabled = false →
      ∀ t ns s2, Step s (Ev.click t) ns s2 → s2 = s ∧ ns = []) := by
  have hinv := inv_trace inv_initState h
  refine ⟨?_, ?_, ?_⟩
  · simp only [Inv, flight] at hinv
    by_cases hb : s.btnEnabled <;> simp [hb] at hinv <;> omega
  · intro hfl
    by_cases hb : s.btnEnabled
    · exfalso
      simp [Inv, flight, hb] at hinv
      simp [flight] at hfl
      omega
    · simpa using hb
  · intro hb t ns s2 hstep
    cases hstep with
    | clickAccepted hb2 _ => rw [hb] at hb2; cases hb2
    | clickEmpty _ _ => exact ⟨rfl, rfl⟩
    | clickBlocked _ => exact ⟨rfl, rfl⟩

/-- Witness for C2_single_flight: the state reached by one accepted click. -/
theorem C2_single_flight_witness :
    runningState.activeRuns ≤ 1 ∧
    (1 ≤ flight runningState → runningState.btnEnabled = false) ∧
    (runningState.btnEnabled = false →
      ∀ t ns s2, Step runningState (Ev.click t) ns s2 → s2 = runningState ∧ ns = []) :=
  C2_single_flight runningState [(Ev.click ['h', 'i'], [Notif.runStarted])]
    (Trace.cons (Step.clickAccepted rfl (by decide)) Trace.nil)

/-- Claim C3: a backend exception during the worker is captured inside
speak_task (nothing propagates out of the thread body), the reset_ui hand-off
is still scheduled, the coordinator returns from RUNNING to IDLE delivering the
run-finished notification, and a subsequent non-empty Submit is accepted. -/
theorem C3_backend_error_contained (eng : Engine) (sliderNow : Nat)
    (raw : List Char) (msg : String) (s : CoordState)
    (hrate : eng.setRate sliderNow = Except.ok ())
    (hsay : eng.say (sanitize raw) = Except.error msg)
    (hrun : 1 ≤ s.activeRuns) :
    (speak_task eng sliderNow raw).propagated = none ∧
    (speak_task eng sliderNow raw).logged = some msg ∧
    (speak_task eng sliderNow raw).resetScheduled = true ∧
    ∃ s1 s2, Step s (Ev.taskDone (some msg)) [] s1 ∧
      Step s1 Ev.runReset [Notif.runFinished] s2 ∧ s2.btnEnabled = true ∧
      ∀ t, (pyStrip t).isEmpty = false →
        ∃ s3, Step s2 (Ev.click t) [Notif.runStarted] s3 := by
  have htask : speak_task eng sliderNow raw = ⟨some sliderNow, none, some msg, true, none⟩ := by
    simp [speak_task, hrate, hsay]
  refine ⟨by simp [htask], by simp [htask], by simp [htask], ?_⟩
  exact ⟨_, _, Step.taskDone hrun, Step.runReset (Nat.le_add_left 1 _), rfl,
    fun t ht => ⟨_, Step.clickAccepted rfl ht⟩⟩

/-- Witness for C3_backend_error_contained: a concrete failing engine, the
running state, and the message it raises. -/
theorem C3_backend_error_contained_witness :
    (speak_task failingEngine 250 ['h', 'i']).propagated = none ∧
    (speak_task failingEngine 250 ['h', 'i']).logged = some "audio subsystem unavailable" ∧
    (speak_task failingEngine 250 ['h', 'i']).resetScheduled = true ∧
    ∃ s1 s2, Step runningState (Ev.taskDone (some "audio subsystem unavailable")) [] s1 ∧
      Step s1 Ev.runReset [Notif.runFinished] s2 ∧ s2.btnEnabled = true ∧
      ∀ t, (pyStrip t).isEmpty = false →
        ∃ s3, Step s2 (Ev.click t) [Notif.runStarted] s3 :=
  C3_backend_error_contained failingEngine 250 ['h', 'i'] "audio subsystem unavailable"
    runningState rfl rfl (by decide)

/-- Claim C4 is right about the intent and the code has a slip: when engine
initialization fails, __init__ shows the error and destroys the root window,
but the except branch does not return, so ui_init() is still called on the
destroyed, partially-constructed object whose engine attribute was never
assigned — the code does not stop immediately after surfacing the error. -/
theorem C4_init_failure_still_builds_ui :
    (kairos_init (Except.error "espeak backend unavailable") (Except.ok ())).errorShown = true ∧
    (kairos_init (Except.error "espeak backend unavailable") (Except.ok ())).rootDestroyed = true ∧
    (kairos_init (Except.error "espeak backend unavailable") (Except.ok ())).engineAssigned = false ∧
    (kairos_init (Except.error "espeak backend unavailable") (Except.ok ())).uiInitCalled = true := by
  exact ⟨rfl, rfl, rfl, rfl⟩

/-- Claim C5: a Submit whose text strips to empty is rejected synchronously
with the warning dialog, no background work starts, the coordinator state is
unchanged, and the empty and the whitespace-only buffers behave identically. -/
theorem C5_empty_input_rejected (eng : Engine) (buf : List Char)
    (sliderAtSubmit sliderAtTask : Nat) (s s2 : CoordState) (ns : List Notif)
    (hempty : (pyStrip buf).isEmpty = true)
    (hstep : Step s (Ev.click buf) ns s2) :
    run_audio eng buf sliderAtSubmit sliderAtTask = SubmitResult.rejectedEmpty ∧
    s2 = s ∧ ns = [] ∧
    run_audio eng [] sliderAtSubmit sliderAtTask =
      run_audio eng [' ', ' ', ' '] sliderAtSubmit sliderAtTask := by
  have hss : s2 = s ∧ ns = [] := by
    cases hstep with
    | clickAccepted _ hne => rw [hempty] at hne; cases hne
    | clickEmpty _ _ => exact ⟨rfl, rfl⟩
    | clickBlocked _ => exact ⟨rfl, rfl⟩
  refine ⟨?_, hss.1, hss.2, rfl⟩
  simp [run_audio, hempty]

/-- Witness for C5_empty_input_rejected: the whitespace-only buffer clicked in
the initial state. -/
theorem C5_empty_input_rejected_witness :
    run_audio okEngine [' ', ' ', ' '] 200 200 = SubmitResult.rejectedEmpty ∧
    initState = initState ∧ ([] : List Notif) = [] ∧
    run_audio okEngine [] 200 200 = run_audio okEngine [' ', ' ', ' '] 200 200 :=
  C5_empty_input_rejected okEngine [' ', ' ', ' '] 200 200 initState initState []
    (by decide) (Step.clickEmpty rfl (by decide))

/-- Claim C6: in every trace from the initial state, any run-finished
notification is preceded by strictly more run-started than run-finished
notifications (started strictly before finished, per run); every event that
delivers a notification executes on the interface main loop; and no
worker-context event mutates the button or the status label — the worker only
enqueues the hand-off. -/
theorem C6_started_before_finished (s : CoordState) (tr : List (Ev × List Notif))
    (h : Trace initState tr s) :
    (∀ p q, notifsOf tr = p ++ Notif.runFinished :: q → countFinished p < countStarted p) ∧
    (∀ e ns, (e, ns) ∈ tr → ns ≠ [] → evCtx e = Ctx.main) ∧
    (∀ s0 e ns s1, Step s0 e ns s1 → evCtx e = Ctx.worker →
      s1.btnEnabled = s0.btnEnabled ∧ s1.statusRunning = s0.statusRunning) := by
  refine ⟨?_, trace_notif_ctx h, ?_⟩
  · intro p q hpq
    have := trace_count_prefix h p q hpq
    simpa [flight, initState] using this
  · intro s0 e ns s1 hstep hctx
    cases hstep with
    | clickAccepted _ _ => cases hctx
    | clickEmpty _ _ => cases hctx
    | clickBlocked _ => cases hctx
    | taskDone _ => exact ⟨rfl, rfl⟩
    | runReset _ => cases hctx

/-- Witness for C6_started_before_finished: one complete run. -/
theorem C6_started_before_finished_witness :
    (∀ p q, notifsOf fullRunTrace = p ++ Notif.runFinished :: q →
      countFinished p < countStarted p) ∧
    (∀ e ns, (e, ns) ∈ fullRunTrace → ns ≠ [] → evCtx e = Ctx.main) ∧
    (∀ s0 e ns s1, Step s0 e ns s1 → evCtx e = Ctx.worker →
      s1.btnEnabled = s0.btnEnabled ∧ s1.statusRunning = s0.statusRunning) :=
  C6_started_before_finished initState fullRunTrace
    (Trace.cons (Step.clickAccepted rfl (by decide))
      (Trace.cons (Step.taskDone (by decide))
        (Trace.cons (Step.runReset (by decide)) Trace.nil)))

/-- Claim C9 as stated is false: with the slider at 200 when run_audio executes
and at 300 when the worker thread reads it at line 127, the engine rate is set
to 300, not to the submit-time 200. -/
theorem C9_counterexample :
    rateUsed (run_audio okEngine ['h', 'i'] 200 300) = some 300 ∧
    some (300 : Nat) ≠ some (200 : Nat) := by
  exact ⟨rfl, by decide⟩

/-- Claim C9 (amended): the raw text a run speaks is the buffer content
captured when run_audio executed, but the rate is whatever the slider holds
when the worker thread reads it: the outcome is independent of the submit-time
slider value, and the rate set on the engine is the worker-time value. -/
theorem C9_rate_read_in_worker (eng : Engine) (buf : List Char)
    (r1 r2 rTask : Nat)
    (hne : (pyStrip buf).isEmpty = false)
    (hrate : eng.setRate rTask = Except.ok ()) :
    run_audio eng buf r1 rTask = run_audio eng buf r2 rTask ∧
    rateUsed (run_audio eng buf r1 rTask) = some rTask ∧
    run_audio eng buf r1 rTask = SubmitResult.started (speak_task eng rTask (pyStrip buf)) := by
  have h3 : run_audio eng buf r1 rTask =
      SubmitResult.started (speak_task eng rTask (pyStrip buf)) := by
    simp [run_audio, hne]
  refine ⟨rfl, ?_, h3⟩
  rw [h3]
  cases hsay : eng.say (sanitize (pyStrip buf)) with
  | error e => simp [rateUsed, speak_task, hrate, hsay]
  | ok u =>
      cases hw : eng.runAndWait with
      | error e => simp [rateUsed, speak_task, hrate, hsay, hw]
      | ok v => simp [rateUsed, speak_task, hrate, hsay, hw]

/-- Witness for C9_rate_read_in_worker at concrete slider values 200 and 7 at
submit time and 300 at worker time. -/
theorem C9_rate_read_in_worker_witness :
    run_audio okEngine ['h', 'i'] 200 300 = run_audio okEngine ['h', 'i'] 7 300 ∧
    rateUsed (run_audio okEngine ['h', 'i'] 200 300) = some 300 ∧
    run_audio okEngine ['h', 'i'] 200 300 =
      SubmitResult.started (speak_task okEngine 300 (pyStrip ['h', 'i'])) :=
  C9_rate_read_in_worker okEngine ['h', 'i'] 200 7 300 (by decide) rfl

end Kairos
